import Mathlib

/-
Verification of the quote-of-the-day React components of this repository:
the QuoteLoader fetch view-state, the Quote like-button toggle, the
QuoteUploader POST view-state, and the stubbed quote API POST handler.
The JavaScript/JSX sources are shallowly embedded: JSON values, rendered
DOM nodes and HTTP requests/responses are explicit inductive data, and
each component's render function is a pure Lean function of the fetch
hook's result.
-/

/-- A JSON value, as produced by parsing a response body or fed to
JSON.stringify.  Numbers are modelled as integers (all numbers appearing
in this repository are integers). -/
inductive Json where
  | null : Json
  | bool (b : Bool) : Json
  | num (n : Int) : Json
  | str (s : String) : Json
  | obj (fields : List (String × Json)) : Json


/-- JavaScript truthiness of a JSON value: null, false, 0 and "" are
falsy; every object (even an empty one) is truthy. -/
def Json.truthy : Json → Bool
  | .null => false
  | .bool b => b
  | .num n => n != 0
  | .str s => s != ""
  | .obj _ => true

/-- Field lookup in a JSON object field list: first binding wins. -/
def lookupField : List (String × Json) → String → Option Json
  | [], _ => none
  | (k, v) :: fs, key => if k = key then some v else lookupField fs key

/-- Property access `value.key` in JavaScript: the field value when the
receiver is an object that has the field, otherwise undefined (`none`). -/
def Json.get : Json → String → Option Json
  | .obj fs, key => lookupField fs key
  | _, _ => none

/-- Escape of one character inside a JSON string literal, as performed by
JSON.stringify. -/
def jsonEscapeChar (c : Char) : String :=
  if c = '"' then "\\\""
  else if c = '\\' then "\\\\"
  else if c = '\n' then "\\n"
  else if c = '\t' then "\\t"
  else if c = '\r' then "\\r"
  else String.singleton c

/-- Escape of a whole string for a JSON string literal. -/
def jsonEscape (s : String) : String :=
  String.join (s.data.map jsonEscapeChar)

mutual

/-- The serialization JSON.stringify performs on a JSON value. -/
def Json.stringify : Json → String
  | .null => "null"
  | .bool true => "true"
  | .bool false => "false"
  | .num n => toString n
  | .str s => "\"" ++ jsonEscape s ++ "\""
  | .obj fs => "\x7b" ++ stringifyFields fs ++ "\x7d"

/-- Comma-separated serialization of the fields of a JSON object. -/
def stringifyFields : List (String × Json) → String
  | [] => ""
  | [(k, v)] => "\"" ++ jsonEscape k ++ "\":" ++ Json.stringify v
  | (k, v) :: f :: fs =>
      "\"" ++ jsonEscape k ++ "\":" ++ Json.stringify v ++ ","
        ++ stringifyFields (f :: fs)

end

/-- A rendered DOM node: a text node, or an element with a tag, an
optional accessibility role (explicit `role=` attribute or the implicit
ARIA role of the tag) and child nodes. -/
inductive Node where
  | text (s : String) : Node
  | elem (tag : String) (role : Option String) (children : List Node) : Node


mutual

/-- The visible text nodes of a rendered node, in document order. -/
def Node.texts : Node → List String
  | .text s => [s]
  | .elem _ _ cs => nodesTexts cs

/-- The visible text nodes of a list of rendered nodes. -/
def nodesTexts : List Node → List String
  | [] => []
  | c :: cs => Node.texts c ++ nodesTexts cs

end

mutual

/-- How many elements with the given accessibility role occur in a node. -/
def Node.countRole (r : String) : Node → Nat
  | .text _ => 0
  | .elem _ ro cs => (if ro = some r then 1 else 0) + nodesCountRole r cs

/-- How many elements with the given accessibility role occur in a list
of nodes. -/
def nodesCountRole (r : String) : List Node → Nat
  | [] => 0
  | c :: cs => Node.countRole r c + nodesCountRole r cs

end

/-- The accessible text content of a node: its text nodes concatenated. -/
def Node.textContent (n : Node) : String :=
  String.join (Node.texts n)

/-- An outbound HTTP request as issued by the fetch hook. -/
structure Request where
  method : String
  url : String
  headers : List (String × String)
  body : Option String


/-- The error value the fetch hook exposes: a transport-level failure, or
a non-2xx HTTP status (react-fetch-hook rejects when response.ok is
false). -/
inductive FetchError where
  | network : FetchError
  | httpStatus (status : Nat) : FetchError


/-- The record destructured from useFetch: `none` models an undefined
field. -/
structure HookResult where
  isLoading : Bool
  data : Option Json
  error : Option FetchError


/-- The externally observable state of one GET request: still unresolved,
failed at transport level, or resolved with a status code and a parsed
JSON body. -/
inductive FetchOutcome where
  | pending : FetchOutcome
  | transportError : FetchOutcome
  | response (status : Nat) (body : Json) : FetchOutcome


/-- Whether an HTTP status is a success (the response.ok range). -/
def statusOk (s : Nat) : Bool :=
  200 ≤ s && s ≤ 299

/-- Model of react-fetch-hook's useFetch contract: while the request is
unresolved isLoading is true; a transport error or a non-ok status sets
error; an ok status delivers the parsed body as data. -/
def useFetch : FetchOutcome → HookResult
  | .pending => ⟨true, none, none⟩
  | .transportError => ⟨false, none, some .network⟩
  | .response s b =>
      if statusOk s then ⟨false, some b, none⟩
      else ⟨false, none, some (.httpStatus s)⟩

/-- The Spinner presentational component (Spinner.jsx): a div with the
explicit role "status" containing a span holding the reason text. -/
def Spinner.render (reason : String) : Node :=
  .elem "div" (some "status") [.elem "span" none [.text reason]]

/-- The initial value of the liked useState in Quote.jsx. -/
def Quote.initLiked : Bool := false

/-- The likeThisQuote click handler of Quote.jsx: setLiked(!liked). -/
def likeThisQuote (liked : Bool) : Bool := !liked

/-- The buttonText binding of Quote.jsx: liked ? "Liked" : "Like". -/
def buttonText (liked : Bool) : String :=
  if liked then "Liked" else "Like"

/-- Rendering of a JSX expression child such as the p element's text in
Quote.jsx: undefined, null and booleans render nothing, strings and
numbers render as text, and a plain object thrown by React as
"Objects are not valid as a React child". -/
def reactChild : Option Json → Except String (List Node)
  | none => .ok []
  | some .null => .ok []
  | some (.bool _) => .ok []
  | some (.str s) => .ok [.text s]
  | some (.num n) => .ok [.text (toString n)]
  | some (.obj _) => .error "Objects are not valid as a React child"

/-- The Quote component (Quote.jsx) rendered with a given text prop and a
given current liked state: an h2 heading "Quote of the Day", a p element
holding the text, and the like button labelled by buttonText. -/
def Quote.render (text : Option Json) (liked : Bool) :
    Except String (List Node) :=
  match reactChild text with
  | .error e => .error e
  | .ok body =>
      .ok [.elem "h2" (some "heading") [.text "Quote of the Day"],
           .elem "p" none body,
           .elem "button" (some "button") [.text (buttonText liked)]]

/-- The QuoteLoader render function (QuoteLoader.jsx) applied to the
destructured useFetch result: error, then isLoading, then data, in that
order, with an implicit undefined (empty) render when all three fail. -/
def QuoteLoader.render (h : HookResult) : Except String (List Node) :=
  if h.error.isSome then
    .ok [.elem "p" none [.text "Error loading quote. Please try again later"]]
  else if h.isLoading then
    .ok [Spinner.render "Quote is loading..."]
  else
    match h.data with
    | some d =>
        if d.truthy then Quote.render (d.get "text") Quote.initLiked
        else .ok []
    | none => .ok []

/-- The QuoteLoader's rendered output as a function of the single GET
request's outcome. -/
def QuoteLoader.renderOutcome (o : FetchOutcome) : Except String (List Node) :=
  QuoteLoader.render (useFetch o)

/-- The requests a mounted QuoteLoader issues: useFetch fires the GET to
the hard-coded quote endpoint exactly once on mount, with no retry for
any outcome. -/
def QuoteLoader.mountRequests : List Request :=
  [{ method := "GET", url := "https://example.com/quoteoftheday",
     headers := [], body := none }]

/-- The fetch view-state of the spec's data model (section 3): Idle,
Pending, Failed or Succeeded. -/
inductive FetchViewState where
  | idle : FetchViewState
  | pending : FetchViewState
  | failed (reason : FetchError) : FetchViewState
  | succeeded (quoteText : Option Json) : FetchViewState

/-- The view-state the QuoteLoader is in for a given hook result, read
off the same destructured fields the render function branches on. -/
def viewState (h : HookResult) : FetchViewState :=
  match h.error with
  | some e => .failed e
  | none =>
      if h.isLoading then .pending
      else
        match h.data with
        | some d => .succeeded (d.get "text")
        | none => .idle

/-- The QuoteUploader render expression (QuoteUploader.jsx):
!error && !isLoading && the success paragraph; a falsy JSX operand
renders nothing. -/
def QuoteUploader.render (h : HookResult) : List Node :=
  if h.error.isSome then []
  else if h.isLoading then []
  else [.elem "p" none [.text "Quote uploaded successfully"]]

/-- The single POST request a mounted QuoteUploader issues: its body is
JSON.stringify applied to the component's whole props argument (the
parameter named text in QuoteUploader.jsx is the props object). -/
def QuoteUploader.request (props : Json) : Request :=
  { method := "POST", url := "https://example.com/quote",
    headers := [("Content-Type", "application/json")],
    body := some (Json.stringify props) }

/-- The requests a mounted QuoteUploader issues: exactly the one POST. -/
def QuoteUploader.mountRequests (props : Json) : List Request :=
  [QuoteUploader.request props]

/-- An HTTP response as built by the stub API handler: a status code and
a plain-text body. -/
structure HttpResp where
  status : Nat
  body : String

/-- Model of MSW's HttpResponse.json(body) with no init: a JSON body and
the default status, 200. -/
def HttpResponse.json (body : Json) : HttpResp :=
  ⟨200, Json.stringify body⟩

/-- Model of new HttpResponse(text, \x7b status \x7d): a plain-text body
with the given status. -/
def HttpResponse.withStatus (body : String) (status : Nat) : HttpResp :=
  ⟨status, body⟩

/-- JavaScript loose equality with undefined: x == undefined holds
exactly for undefined and null. -/
def looseEqUndefined : Option Json → Bool
  | none => true
  | some .null => true
  | some _ => false

/-- Whether typeof x is "string" in JavaScript (undefined included,
giving "undefined"). -/
def typeofIsString : Option Json → Bool
  | some (.str _) => true
  | _ => false

/-- The stub quote API POST handler of QuoteUploader's test file
(stubQuoteApiRoutes): 400 "Missing quote text" when req.text ==
undefined, 400 "String required for field text" when typeof req.text is
not "string", otherwise HttpResponse.json(\x7b status: 204 \x7d). -/
def stubQuotePost (req : Json) : HttpResp :=
  if looseEqUndefined (req.get "text") then
    HttpResponse.withStatus "Missing quote text" 400
  else if !typeofIsString (req.get "text") then
    HttpResponse.withStatus "String required for field text" 400
  else
    HttpResponse.json (.obj [("status", .num 204)])

/-- C1: the QuoteLoader render function evaluates its branches in a fixed
precedence order: whenever error is set it returns the error rendering
(for every loading flag and data value, so an error is never masked by a
spinner or quote); otherwise the spinner whenever loading; otherwise the
Quote component whenever data is present (truthy); otherwise nothing. -/
theorem quoteLoader_branch_precedence (h : HookResult) :
    (∀ e, h.error = some e →
        QuoteLoader.render h
          = .ok [.elem "p" none
              [.text "Error loading quote. Please try again later"]]) ∧
    (h.error = none → h.isLoading = true →
        QuoteLoader.render h = .ok [Spinner.render "Quote is loading..."]) ∧
    (h.error = none → h.isLoading = false →
        ∀ d, h.data = some d → d.truthy = true →
          QuoteLoader.render h = Quote.render (d.get "text") Quote.initLiked) ∧
    (h.error = none → h.isLoading = false → h.data = none →
        QuoteLoader.render h = .ok []) ∧
    (h.error = none → h.isLoading = false →
        ∀ d, h.data = some d → d.truthy = false →
          QuoteLoader.render h = .ok []) := by
  obtain ⟨l, d, e⟩ := h
  refine ⟨?_, ?_, ?_, ?_, ?_⟩ <;> intros <;> subst_vars <;>
    simp_all [QuoteLoader.render]

/-- Witness for C1 at concrete hook results, one per branch; the first
conjunct has isLoading true, showing error suppresses the spinner. -/
theorem quoteLoader_branch_precedence_witness :
    QuoteLoader.render ⟨true, none, some .network⟩
      = .ok [.elem "p" none
          [.text "Error loading quote. Please try again later"]] ∧
    QuoteLoader.render ⟨true, none, none⟩
      = .ok [Spinner.render "Quote is loading..."] ∧
    QuoteLoader.render ⟨false, some (.obj [("text", .str "q")]), none⟩
      = Quote.render ((Json.obj [("text", .str "q")]).get "text")
          Quote.initLiked ∧
    QuoteLoader.render ⟨false, none, none⟩ = .ok [] ∧
    QuoteLoader.render ⟨false, some (.num 0), none⟩ = .ok [] :=
  ⟨(quoteLoader_branch_precedence _).1 _ rfl,
   (quoteLoader_branch_precedence _).2.1 rfl rfl,
   (quoteLoader_branch_precedence _).2.2.1 rfl rfl _ rfl rfl,
   (quoteLoader_branch_precedence _).2.2.2.1 rfl rfl rfl,
   (quoteLoader_branch_precedence _).2.2.2.2 rfl rfl _ rfl rfl⟩

/-- C2: for every successful GET response whose body is an object with a
string field text = s, the QuoteLoader reaches the Succeeded view-state
and its rendered output contains s as visible text, rendered through the
Quote component. -/
theorem quoteLoader_success_shows_text (status : Nat) (b : Json) (s : String)
    (hok : statusOk status = true) (ht : b.get "text" = some (.str s)) :
    viewState (useFetch (.response status b)) = .succeeded (some (.str s)) ∧
    QuoteLoader.renderOutcome (.response status b)
      = .ok [.elem "h2" (some "heading") [.text "Quote of the Day"],
             .elem "p" none [.text s],
             .elem "button" (some "button") [.text "Like"]] ∧
    s ∈ nodesTexts
          [.elem "h2" (some "heading") [.text "Quote of the Day"],
           .elem "p" none [.text s],
           .elem "button" (some "button") [.text "Like"]] := by
  have htr : b.truthy = true := by
    cases b <;> simp_all [Json.get, Json.truthy]
  refine ⟨?_, ?_, ?_⟩
  · simp [viewState, useFetch, hok, ht]
  · simp [QuoteLoader.renderOutcome, useFetch, hok, QuoteLoader.render,
      htr, ht, Quote.render, reactChild, Quote.initLiked, buttonText]
  · show s ∈ _ ++ _
    simp [Node.texts, nodesTexts]

/-- Witness for C2: the happy path of the source test, a 200 response
with body text "Just do it". -/
theorem quoteLoader_success_shows_text_witness :
    viewState (useFetch (.response 200 (.obj [("text", .str "Just do it")])))
      = .succeeded (some (.str "Just do it")) ∧
    QuoteLoader.renderOutcome (.response 200 (.obj [("text", .str "Just do it")]))
      = .ok [.elem "h2" (some "heading") [.text "Quote of the Day"],
             .elem "p" none [.text "Just do it"],
             .elem "button" (some "button") [.text "Like"]] ∧
    "Just do it" ∈ nodesTexts
          [.elem "h2" (some "heading") [.text "Quote of the Day"],
           .elem "p" none [.text "Just do it"],
           .elem "button" (some "button") [.text "Like"]] :=
  quoteLoader_success_shows_text 200 (.obj [("text", .str "Just do it")])
    "Just do it" rfl rfl

/-- C3: for every GET outcome that is a transport error or a non-success
status, the QuoteLoader renders exactly the fixed error paragraph; that
output has no status-role element and its only visible text is the error
message (so neither spinner nor quote text); and the mounted component's
request list has length one, so no retry is issued. -/
theorem quoteLoader_failure_renders_error (o : FetchOutcome)
    (hfail : o = .transportError ∨
      ∃ st b, o = .response st b ∧ statusOk st = false) :
    QuoteLoader.renderOutcome o
      = .ok [.elem "p" none
          [.text "Error loading quote. Please try again later"]] ∧
    nodesTexts [.elem "p" none
        [.text "Error loading quote. Please try again later"]]
      = ["Error loading quote. Please try again later"] ∧
    nodesCountRole "status"
        [Node.elem "p" none
          [.text "Error loading quote. Please try again later"]] = 0 ∧
    QuoteLoader.mountRequests.length = 1 := by
  refine ⟨?_, rfl, rfl, rfl⟩
  rcases hfail with h | ⟨st, b, h, hbad⟩
  · subst h; rfl
  · subst h
    simp [QuoteLoader.renderOutcome, useFetch, QuoteLoader.render, hbad]

/-- Witness for C3: a transport-level failure. -/
theorem quoteLoader_failure_renders_error_witness :
    QuoteLoader.renderOutcome .transportError
      = .ok [.elem "p" none
          [.text "Error loading quote. Please try again later"]] ∧
    nodesTexts [.elem "p" none
        [.text "Error loading quote. Please try again later"]]
      = ["Error loading quote. Please try again later"] ∧
    nodesCountRole "status"
        [Node.elem "p" none
          [.text "Error loading quote. Please try again later"]] = 0 ∧
    QuoteLoader.mountRequests.length = 1 :=
  quoteLoader_failure_renders_error .transportError (.inl rfl)

/-- C4: while the GET request is unresolved, the QuoteLoader renders
exactly the Spinner with reason "Quote is loading...", whose output has
exactly one status-role element, whose accessible text is the reason, and
whose only visible text is the reason (so neither the error message nor
any quote text appears). -/
theorem quoteLoader_pending_shows_spinner :
    QuoteLoader.renderOutcome .pending
      = .ok [Spinner.render "Quote is loading..."] ∧
    nodesCountRole "status" [Spinner.render "Quote is loading..."] = 1 ∧
    (Spinner.render "Quote is loading...").textContent
      = "Quote is loading..." ∧
    nodesTexts [Spinner.render "Quote is loading..."]
      = ["Quote is loading..."] :=
  ⟨rfl, rfl, rfl, rfl⟩

/-- C5: the like toggle of the Quote component: the initial label is
"Like", after one click "Liked", after two clicks "Like" again; toggling
twice from any state returns to it; the label is "Liked" exactly when the
liked flag is true; and the rendered button carries that label. -/
theorem quote_like_toggle (s : String) (b : Bool) :
    buttonText Quote.initLiked = "Like" ∧
    buttonText (likeThisQuote Quote.initLiked) = "Liked" ∧
    buttonText (likeThisQuote (likeThisQuote Quote.initLiked)) = "Like" ∧
    likeThisQuote (likeThisQuote b) = b ∧
    (buttonText b = "Liked" ↔ b = true) ∧
    Quote.render (some (.str s)) b
      = .ok [.elem "h2" (some "heading") [.text "Quote of the Day"],
             .elem "p" none [.text s],
             .elem "button" (some "button") [.text (buttonText b)]] := by
  refine ⟨rfl, rfl, rfl, by cases b <;> rfl, by cases b <;> simp [buttonText], rfl⟩

/-- C6: this theorem records how the stub quote API POST handler of the
QuoteUploader test file actually behaves: a missing text field gives
400 "Missing quote text"; a present non-string text gives 400
"String required for field text"; but a present string text gives
HttpResponse.json with the object containing status 204 passed as the
BODY, so the HTTP status is the default 200, not 204 No Content as the
handler's own success comment intends. -/
theorem stubQuotePost_success_not_204 :
    stubQuotePost (.obj []) = ⟨400, "Missing quote text"⟩ ∧
    stubQuotePost (.obj [("text", .num 42)])
      = ⟨400, "String required for field text"⟩ ∧
    stubQuotePost (.obj [("text", .str "hello")])
      = ⟨200, "\x7b\"status\":204\x7d"⟩ ∧
    (stubQuotePost (.obj [("text", .str "hello")])).status ≠ 204 :=
  ⟨rfl, rfl, rfl, by decide⟩

/-- C7: the QuoteUploader renders the fixed confirmation paragraph
exactly when the hook reports neither an error nor loading; while loading
and on error it renders nothing. -/
theorem quoteUploader_success_message_iff (h : HookResult) :
    ("Quote uploaded successfully" ∈ nodesTexts (QuoteUploader.render h)
       ↔ (h.error = none ∧ h.isLoading = false)) ∧
    (∀ e, h.error = some e → QuoteUploader.render h = []) ∧
    (h.isLoading = true → QuoteUploader.render h = []) ∧
    (h.error = none → h.isLoading = false →
       QuoteUploader.render h
         = [.elem "p" none [.text "Quote uploaded successfully"]]) := by
  obtain ⟨l, d, e⟩ := h
  cases e <;> cases l <;>
    simp [QuoteUploader.render, nodesTexts, Node.texts]

/-- Witness for C7 at a resolved, error-free hook result. -/
theorem quoteUploader_success_message_iff_witness :
    QuoteUploader.render ⟨false, none, none⟩
      = [.elem "p" none [.text "Quote uploaded successfully"]] :=
  (quoteUploader_success_message_iff ⟨false, none, none⟩).2.2.2 rfl rfl

/-- C8: mounting the QuoteUploader with a text prop issues exactly one
POST request to the quote endpoint, with Content-Type application/json
and body JSON.stringify of the props object, which for props holding only
the text s is the JSON document containing the single text field. -/
theorem quoteUploader_posts_text_json (s : String) :
    QuoteUploader.mountRequests (.obj [("text", .str s)])
      = [{ method := "POST", url := "https://example.com/quote",
           headers := [("Content-Type", "application/json")],
           body := some (Json.stringify (.obj [("text", .str s)])) }] ∧
    (QuoteUploader.mountRequests (.obj [("text", .str s)])).length = 1 ∧
    Json.stringify (.obj [("text", .str s)])
      = "\x7b\"text\":" ++ Json.stringify (.str s) ++ "\x7d" ∧
    Json.stringify (.obj [("text", .str "Just do it")])
      = "\x7b\"text\":\"Just do it\"\x7d" := by
  refine ⟨rfl, rfl, ?_, rfl⟩
  show "\x7b" ++ ("\"" ++ jsonEscape "text" ++ "\":"
      ++ ("\"" ++ jsonEscape s ++ "\"")) ++ "\x7d" = _
  simp [Json.stringify]
  rfl

/-- C9: a successful (2xx) response whose body is an object lacking a
text field still takes the success branch: the Quote component is
rendered with an undefined text (heading present, empty quote body), no
exception is raised (the result is ok), and the error message does not
appear, so the error branch is unreachable from such a response. -/
theorem quoteLoader_malformed_success_safe (status : Nat)
    (fs : List (String × Json))
    (hok : statusOk status = true) (hmiss : lookupField fs "text" = none) :
    QuoteLoader.renderOutcome (.response status (.obj fs))
      = .ok [.elem "h2" (some "heading") [.text "Quote of the Day"],
             .elem "p" none [],
             .elem "button" (some "button") [.text "Like"]] ∧
    nodesTexts [.elem "h2" (some "heading") [.text "Quote of the Day"],
        Node.elem "p" none [],
        .elem "button" (some "button") [.text "Like"]]
      = ["Quote of the Day", "Like"] ∧
    "Error loading quote. Please try again later"
      ∉ nodesTexts [.elem "h2" (some "heading") [.text "Quote of the Day"],
          Node.elem "p" none [],
          .elem "button" (some "button") [.text "Like"]] := by
  refine ⟨?_, rfl, by decide⟩
  simp [QuoteLoader.renderOutcome, useFetch, hok, QuoteLoader.render,
    Json.truthy, Json.get, hmiss, Quote.render, reactChild,
    Quote.initLiked, buttonText]

/-- Witness for C9: a 200 response whose object body has only an author
field. -/
theorem quoteLoader_malformed_success_safe_witness :
    QuoteLoader.renderOutcome (.response 200 (.obj [("author", .str "anon")]))
      = .ok [.elem "h2" (some "heading") [.text "Quote of the Day"],
             .elem "p" none [],
             .elem "button" (some "button") [.text "Like"]] ∧
    nodesTexts [.elem "h2" (some "heading") [.text "Quote of the Day"],
        Node.elem "p" none [],
        .elem "button" (some "button") [.text "Like"]]
      = ["Quote of the Day", "Like"] ∧
    "Error loading quote. Please try again later"
      ∉ nodesTexts [.elem "h2" (some "heading") [.text "Quote of the Day"],
          Node.elem "p" none [],
          .elem "button" (some "button") [.text "Like"]] :=
  quoteLoader_malformed_success_safe 200 [("author", .str "anon")] rfl rfl

/-- C10: the QuoteUploader serializes its entire props object as the POST
body: for every props value the body is JSON.stringify of the whole
object, and props beyond text are included in the body, as the concrete
two-field example shows. -/
theorem quoteUploader_serializes_whole_props (props : Json) :
    (QuoteUploader.request props).body = some (Json.stringify props) ∧
    QuoteUploader.mountRequests props = [QuoteUploader.request props] ∧
    (QuoteUploader.request
        (.obj [("text", .str "a"), ("author", .str "b")])).body
      = some "\x7b\"text\":\"a\",\"author\":\"b\"\x7d" :=
  ⟨rfl, rfl, rfl⟩
